import Mathlib

/-!
Shallow embedding of `src/meshing.rs` (voxel-chunk surface extraction).

Modelling conventions:
* `usize`/`u32` values are `Nat`; the `f32` vertex/normal/uv components produced
  by the code are small integers (coordinates ≤ 17, dimensions ≤ 255), on which
  all the `f32` arithmetic performed (addition of small naturals) is exact, so
  they are modelled as `Int`.
* `u16` index arithmetic (`as u16` cast and `+`) is modelled as `Nat` arithmetic
  modulo `2 ^ 16 = 65536`.
* Rust panics (`expect` on a missing element) are modelled by `Option`: `none`
  is the fail-fast outcome.
* Bevy ECS queries are modelled as lists of entity components: a world entity is
  a `Chunk` paired with `Option ChunkMeshData` (`some` when the entity has a
  `Handle<Mesh>` and hence is visited by `chunk_meshing_system`).
-/

/-- Model of `MaterialID` (meshing.rs:13-16): a `u32` handle. -/
structure MaterialID where
  id : Nat
deriving DecidableEq, Repr

/-- Model of `Material` (meshing.rs:32-37). -/
structure Material where
  id : MaterialID
  transparent : Bool
  custom_model : Bool
deriving DecidableEq, Repr

/-- Model of `AIR` (meshing.rs:39-43): id 0, transparent, no custom model. -/
def AIR : Material :=
  { id := ⟨0⟩, transparent := true, custom_model := false }

/-- Model of `AADirection` (meshing.rs:45-53). -/
inductive AADirection where
  | XPositive
  | XNegative
  | YPositive
  | YNegative
  | ZPositive
  | ZNegative
deriving DecidableEq, Repr

/-- Model of `AADirection::is_positive` (meshing.rs:57-66). -/
def AADirection.is_positive : AADirection → Bool
  | .XPositive => true
  | .XNegative => false
  | .YPositive => true
  | .YNegative => false
  | .ZPositive => true
  | .ZNegative => false

/-- Model of `AADirection::is_negative` (meshing.rs:68-70). -/
def AADirection.is_negative (d : AADirection) : Bool :=
  !d.is_positive

/-- Discriminant of the `AADirection` enum (`direction as usize`). -/
def AADirection.toIndex : AADirection → Nat
  | .XPositive => 0
  | .XNegative => 1
  | .YPositive => 2
  | .YNegative => 3
  | .ZPositive => 4
  | .ZNegative => 5

/-- Model of `Block` (meshing.rs:73-76). -/
structure Block where
  material : MaterialID
deriving DecidableEq, Repr

/-- Model of `impl Default for Block` (meshing.rs:78-84): material is `AIR.id`. -/
def Block.default : Block :=
  { material := AIR.id }

/-- Model of `bevy::ecs::entity::Entity`, an opaque handle. -/
abbrev Entity := Nat

/-- Model of `Chunk` (meshing.rs:86-91): flat block storage, dirty flag, 6 optional
neighbor links. The fixed-size array `[Block; SX*SY*SZ]` is a `List Block` of
length `SIZE_X * SIZE_Y * SIZE_Z`. -/
structure Chunk where
  blocks : List Block
  updated : Bool
  neighbors : List (Option Entity)

/-- Model of `Chunk::SIZE_X` (meshing.rs:95). -/
def Chunk.SIZE_X : Nat := 16

/-- Model of `Chunk::SIZE_Y` (meshing.rs:96). -/
def Chunk.SIZE_Y : Nat := 16

/-- Model of `Chunk::SIZE_Z` (meshing.rs:97). -/
def Chunk.SIZE_Z : Nat := 16

/-- Model of `Chunk::empty` (meshing.rs:99-105): all blocks default (AIR), dirty flag
set, no neighbors linked. -/
def Chunk.empty : Chunk :=
  { blocks := List.replicate (Chunk.SIZE_X * Chunk.SIZE_Y * Chunk.SIZE_Z) Block.default
    updated := true
    neighbors := List.replicate 6 none }

/-- The linear index formula used by both block accessors (meshing.rs:121,127):
`SIZE_X * (SIZE_Y * z + y) + x`. -/
def Chunk.linearIndex (x y z : Nat) : Nat :=
  Chunk.SIZE_X * (Chunk.SIZE_Y * z + y) + x

/-- Model of `Chunk::block_at` (meshing.rs:119-123): `self.blocks.get(idx).expect(..)`.
`none` models the `expect` panic (the fail-fast outcome). Note the source
checks only the flattened linear index against the array length, not the
individual coordinates. -/
def Chunk.block_at (c : Chunk) (x y z : Nat) : Option Block :=
  c.blocks.get? (Chunk.linearIndex x y z)

/-- Write-through model of `Chunk::block_at_mut` (meshing.rs:125-129): mutating
the block returned by `block_at_mut` replaces the element at the same linear
index (`List.set` leaves the list unchanged when the linear index is out of
range, where the source would panic; no claim depends on that case). -/
def Chunk.set_block (c : Chunk) (x y z : Nat) (b : Block) : Chunk :=
  { c with blocks := c.blocks.set (Chunk.linearIndex x y z) b }

/-- Model of `Chunk::set_neighbor` (meshing.rs:107-109). -/
def Chunk.set_neighbor (c : Chunk) (e : Entity) (d : AADirection) : Chunk :=
  { c with neighbors := c.neighbors.set d.toIndex (some e) }

/-- Model of `Chunk::get_neighbor` (meshing.rs:111-113). -/
def Chunk.get_neighbor (c : Chunk) (d : AADirection) : Option Entity :=
  (c.neighbors.get? d.toIndex).join

/-- Model of `Chunk::has_changed` (meshing.rs:131-133). -/
def Chunk.has_changed (c : Chunk) : Bool :=
  c.updated

/-- Model of `Chunk::set_change` (meshing.rs:135-137). -/
def Chunk.set_change (c : Chunk) : Chunk :=
  { c with updated := true }

/-- Model of `Chunk::clear_change` (meshing.rs:139-141). -/
def Chunk.clear_change (c : Chunk) : Chunk :=
  { c with updated := false }

/-- Model of `ChunkMeshData` (meshing.rs:150-155): positions/normals are `f32` triples,
uvs `f32` pairs, indices `u16`; see the modelling conventions above. -/
structure ChunkMeshData where
  positions : List (Int × Int × Int)
  normals : List (Int × Int × Int)
  uvs : List (Int × Int)
  indices : List Nat
deriving DecidableEq, Repr

/-- Model of `impl Default for ChunkMeshData` (meshing.rs:157-166): four empty vectors. -/
def ChunkMeshData.default : ChunkMeshData :=
  { positions := [], normals := [], uvs := [], indices := [] }

/-- Model of `FaceInserterImpl::<0>::insert_face` (meshing.rs:214-250), the only
`FaceInserter` impl in the source (DIR = 0, the `XPositive` discriminant).
`base_vertex_idx` is `mesh.positions.len() as u16`, and the `+ 1`/`+ 2`/`+ 3`
on it are `u16` additions, hence the `% 65536`. The four pushed uvs are the
constant `[1f32, 1f32]`, and the four normals the constant `[1,0,0]`, exactly
as in the source. -/
def FaceInserterImpl0.insert_face (block_pos : Nat × Nat × Nat)
    (dimensions : Nat × Nat) (mesh : ChunkMeshData) : ChunkMeshData :=
  let base_vertex_idx : Nat := mesh.positions.length % 65536
  let px : Int := block_pos.1
  let py : Int := block_pos.2.1
  let pz : Int := block_pos.2.2
  let u : Int := dimensions.1
  let v : Int := dimensions.2
  { positions := mesh.positions ++
      [(px, py + u, pz), (px, py + u, pz + v), (px, py, pz + v), (px, py, pz)]
    normals := mesh.normals ++ [(1, 0, 0), (1, 0, 0), (1, 0, 0), (1, 0, 0)]
    uvs := mesh.uvs ++ [(1, 1), (1, 1), (1, 1), (1, 1)]
    indices := mesh.indices ++
      [base_vertex_idx, (base_vertex_idx + 1) % 65536, (base_vertex_idx + 2) % 65536,
       (base_vertex_idx + 2) % 65536, (base_vertex_idx + 3) % 65536, base_vertex_idx] }

/-- The voxel coordinates visited by `NaiveChunkMesher::generate_mesh`
(meshing.rs:262-264): z outer, y middle, x inner, each over `0..16`. -/
def chunkCoords : List (Nat × Nat × Nat) :=
  (List.range Chunk.SIZE_Z).flatMap fun z =>
    (List.range Chunk.SIZE_Y).flatMap fun y =>
      (List.range Chunk.SIZE_X).map fun x => (x, y, z)

/-- One loop-body iteration of `NaiveChunkMesher::generate_mesh`
(meshing.rs:266-273): reads `chunk.block_at(x, y, z)` into a binding that is
never used, then unconditionally inserts the DIR = 0 face at
`(x + 1, y, z)` with dimensions `(1, 1)`. -/
def naiveMeshStep (chunk : Chunk) (mesh : ChunkMeshData) (p : Nat × Nat × Nat) :
    ChunkMeshData :=
  let _block := chunk.block_at p.1 p.2.1 p.2.2
  FaceInserterImpl0.insert_face (p.1 + 1, p.2.1, p.2.2) (1, 1) mesh

/-- Model of `NaiveChunkMesher::generate_mesh` (meshing.rs:256-279). The final
`mesh.into()` conversion to a bevy `Mesh` copies the four buffers verbatim, so
the model returns the buffers themselves. -/
def NaiveChunkMesher.generate_mesh (chunk : Chunk) : ChunkMeshData :=
  chunkCoords.foldl (naiveMeshStep chunk) ChunkMeshData.default

/-- Model of `chunk_meshing_system` (meshing.rs:187-202), specialised to the only
`ChunkMesher` impl. Entities with no `Handle<Mesh>` are not in the query;
unchanged chunks are skipped; otherwise the freshly generated mesh replaces
the stored one. The chunk itself is never mutated. -/
def chunk_meshing_system (entities : List (Chunk × Option ChunkMeshData)) :
    List (Chunk × Option ChunkMeshData) :=
  entities.map fun e =>
    match e with
    | (c, none) => (c, none)
    | (c, some m) =>
      if c.has_changed then (c, some (NaiveChunkMesher.generate_mesh c))
      else (c, some m)

/-- Model of `chunk_end_of_tick_system` (meshing.rs:144-148): sets `updated = false` on
every chunk in the world, unconditionally. -/
def chunk_end_of_tick_system (entities : List (Chunk × Option ChunkMeshData)) :
    List (Chunk × Option ChunkMeshData) :=
  entities.map fun e => ({ e.1 with updated := false }, e.2)

/-! ## Chunk mutation operations for the dirty-flag lifecycle -/

/-- The operations a caller can interleave on a chunk: a block mutation
(through `block_at_mut`), `set_change` (`mark_changed`), `clear_change`. -/
inductive ChunkOp where
  | set_block : Nat → Nat → Nat → Block → ChunkOp
  | set_change : ChunkOp
  | clear_change : ChunkOp

/-- Apply one `ChunkOp` as the source methods do. -/
def applyOp (c : Chunk) : ChunkOp → Chunk
  | .set_block x y z b => c.set_block x y z b
  | .set_change => c.set_change
  | .clear_change => c.clear_change

/-- Spec-side definition (spec §8, Testable Property 8 / claim C9 wording):
the flag equals the last of `set_change`/`clear_change` applied, `true`
initially; block mutations do not affect it. -/
def specLastFlag (ops : List ChunkOp) : Bool :=
  ops.foldl
    (fun b op =>
      match op with
      | .set_change => true
      | .clear_change => false
      | .set_block _ _ _ _ => b)
    true

lemma foldl_applyOp_updated (ops : List ChunkOp) : ∀ c : Chunk,
    (ops.foldl applyOp c).updated =
      ops.foldl
        (fun b op =>
          match op with
          | ChunkOp.set_change => true
          | ChunkOp.clear_change => false
          | ChunkOp.set_block _ _ _ _ => b)
        c.updated := by
  induction ops with
  | nil => intro c; rfl
  | cons op tl ih =>
    intro c
    cases op <;>
      simp [List.foldl_cons, applyOp, Chunk.set_block, Chunk.set_change,
        Chunk.clear_change, ih]

/-- Claim C9: a fresh chunk reports `has_changed = true`; after `clear_change`
it reports `false`; and for every interleaving of block mutations,
`set_change` and `clear_change` starting from `Chunk.empty`, `has_changed`
equals exactly the last of `set_change`/`clear_change` applied (`true`
initially). -/
theorem C9_dirty_flag_lifecycle :
    Chunk.empty.has_changed = true ∧
    Chunk.empty.clear_change.has_changed = false ∧
    Chunk.empty.clear_change.set_change.has_changed = true ∧
    ∀ ops : List ChunkOp,
      (ops.foldl applyOp Chunk.empty).has_changed = specLastFlag ops := by
  refine ⟨rfl, rfl, rfl, fun ops => ?_⟩
  unfold Chunk.has_changed specLastFlag
  rw [foldl_applyOp_updated]
  rfl

/-- Claim C10: every block of `Chunk.empty` is `AIR` (id 0, transparent, no
custom model), and the fresh chunk is marked dirty. -/
theorem C10_empty_chunk_all_air (x y z : Nat)
    (hx : x < Chunk.SIZE_X) (hy : y < Chunk.SIZE_Y) (hz : z < Chunk.SIZE_Z) :
    Chunk.empty.block_at x y z = some { material := AIR.id } ∧
    AIR.id = ⟨0⟩ ∧ AIR.transparent = true ∧ AIR.custom_model = false ∧
    Chunk.empty.has_changed = true := by
  refine ⟨?_, rfl, rfl, rfl, rfl⟩
  have hx' : x < 16 := hx
  have hy' : y < 16 := hy
  have hz' : z < 16 := hz
  have hlt : Chunk.linearIndex x y z < Chunk.SIZE_X * Chunk.SIZE_Y * Chunk.SIZE_Z := by
    unfold Chunk.linearIndex Chunk.SIZE_X Chunk.SIZE_Y Chunk.SIZE_Z
    omega
  unfold Chunk.block_at Chunk.empty
  rw [List.get?_eq_getElem?, List.getElem?_replicate]
  simp [hlt, Block.default]

/-- Witness for C10 at the concrete in-range coordinate (0, 0, 0). -/
theorem C10_empty_chunk_all_air_witness :
    Chunk.empty.block_at 0 0 0 = some { material := AIR.id } ∧
    AIR.id = ⟨0⟩ ∧ AIR.transparent = true ∧ AIR.custom_model = false ∧
    Chunk.empty.has_changed = true :=
  C10_empty_chunk_all_air 0 0 0 (by decide) (by decide) (by decide)

/-- A chunk obtained from `Chunk.empty` by writing material 7 at the in-range
coordinate (0, 1, 0), whose linear index is 16. -/
def aliasChunk : Chunk :=
  Chunk.empty.set_block 0 1 0 { material := ⟨7⟩ }

/-- Claim C2 (evidence of the code bug): the out-of-range coordinate
(16, 0, 0) — x = 16 ≥ SIZE_X — does not fail fast; `block_at` returns `some`
block, namely the one stored at the different in-range coordinate (0, 1, 0),
because the accessor bounds-checks only the flattened linear index and
`linearIndex 16 0 0 = linearIndex 0 1 0 = 16`. -/
theorem C2_block_at_out_of_range_aliases :
    aliasChunk.block_at 16 0 0 = some { material := ⟨7⟩ } ∧
    aliasChunk.block_at 16 0 0 = aliasChunk.block_at 0 1 0 ∧
    Chunk.linearIndex 16 0 0 = Chunk.linearIndex 0 1 0 := by
  refine ⟨?_, ?_, rfl⟩ <;> rfl

/-- Claim C3: `generate_mesh` never uses the block it reads, so the generated
buffers are identical for any two chunks, whatever their block contents. -/
theorem C3_generate_mesh_ignores_blocks (c1 c2 : Chunk) :
    NaiveChunkMesher.generate_mesh c1 = NaiveChunkMesher.generate_mesh c2 := rfl

/-- Witness for C3: the all-air chunk and a mutated chunk produce the same
buffers. -/
theorem C3_generate_mesh_ignores_blocks_witness :
    NaiveChunkMesher.generate_mesh Chunk.empty =
      NaiveChunkMesher.generate_mesh (Chunk.empty.set_block 0 0 0 { material := ⟨1⟩ }) :=
  C3_generate_mesh_ignores_blocks Chunk.empty
    (Chunk.empty.set_block 0 0 0 { material := ⟨1⟩ })

/-- Claim C4 (evidence of the code bug): a dirty chunk with no mesh handle —
so `chunk_meshing_system` never visits it and no mesh generation runs for it —
still has its dirty flag cleared by `chunk_end_of_tick_system`, which clears
every chunk unconditionally. -/
theorem C4_dirty_cleared_without_meshing :
    Chunk.empty.has_changed = true ∧
    (chunk_end_of_tick_system (chunk_meshing_system [(Chunk.empty, none)])).map
        (fun e => e.1.has_changed) = [false] :=
  ⟨rfl, rfl⟩

/-- Claim C8 (evidence of the code bug): `insert_face` with width 2 and
height 3 pushes the constant UV (1, 1) four times — the four corners receive
identical UV values and span no rectangle at all. -/
theorem C8_insert_face_uvs_constant :
    (FaceInserterImpl0.insert_face (0, 0, 0) (2, 3) ChunkMeshData.default).uvs =
      [(1, 1), (1, 1), (1, 1), (1, 1)] := rfl

/-! ## Mesh-buffer shape lemmas -/

lemma foldl_naive_positions_length (chunk : Chunk) (l : List (Nat × Nat × Nat)) :
    ∀ mesh : ChunkMeshData,
      (l.foldl (naiveMeshStep chunk) mesh).positions.length =
        mesh.positions.length + 4 * l.length := by
  induction l with
  | nil => intro mesh; simp
  | cons hd tl ih =>
    intro mesh
    rw [List.foldl_cons, ih]
    simp [naiveMeshStep, FaceInserterImpl0.insert_face]
    omega

lemma foldl_naive_normals_length (chunk : Chunk) (l : List (Nat × Nat × Nat)) :
    ∀ mesh : ChunkMeshData,
      (l.foldl (naiveMeshStep chunk) mesh).normals.length =
        mesh.normals.length + 4 * l.length := by
  induction l with
  | nil => intro mesh; simp
  | cons hd tl ih =>
    intro mesh
    rw [List.foldl_cons, ih]
    simp [naiveMeshStep, FaceInserterImpl0.insert_face]
    omega

lemma foldl_naive_uvs_length (chunk : Chunk) (l : List (Nat × Nat × Nat)) :
    ∀ mesh : ChunkMeshData,
      (l.foldl (naiveMeshStep chunk) mesh).uvs.length =
        mesh.uvs.length + 4 * l.length := by
  induction l with
  | nil => intro mesh; simp
  | cons hd tl ih =>
    intro mesh
    rw [List.foldl_cons, ih]
    simp [naiveMeshStep, FaceInserterImpl0.insert_face]
    omega

lemma foldl_naive_indices_length (chunk : Chunk) (l : List (Nat × Nat × Nat)) :
    ∀ mesh : ChunkMeshData,
      (l.foldl (naiveMeshStep chunk) mesh).indices.length =
        mesh.indices.length + 6 * l.length := by
  induction l with
  | nil => intro mesh; simp
  | cons hd tl ih =>
    intro mesh
    rw [List.foldl_cons, ih]
    simp [naiveMeshStep, FaceInserterImpl0.insert_face]
    omega

lemma foldl_naive_indices_bound (chunk : Chunk) (l : List (Nat × Nat × Nat)) :
    ∀ mesh : ChunkMeshData,
      mesh.positions.length + 4 * l.length ≤ 65536 →
      (∀ i ∈ mesh.indices, i < mesh.positions.length) →
      ∀ i ∈ (l.foldl (naiveMeshStep chunk) mesh).indices,
        i < (l.foldl (naiveMeshStep chunk) mesh).positions.length := by
  induction l with
  | nil =>
    intro mesh _ hb
    simpa using hb
  | cons hd tl ih =>
    intro mesh hlen hb
    rw [List.foldl_cons]
    have hlen' : mesh.positions.length + 4 ≤ 65536 := by
      simp at hlen
      omega
    apply ih
    · simp [naiveMeshStep, FaceInserterImpl0.insert_face]
      simp at hlen
      omega
    · intro i hi
      have e0 : mesh.positions.length % 65536 = mesh.positions.length :=
        Nat.mod_eq_of_lt (by omega)
      simp [naiveMeshStep, FaceInserterImpl0.insert_face, e0,
        Nat.mod_eq_of_lt (show mesh.positions.length + 1 < 65536 by omega),
        Nat.mod_eq_of_lt (show mesh.positions.length + 2 < 65536 by omega),
        Nat.mod_eq_of_lt (show mesh.positions.length + 3 < 65536 by omega)] at hi ⊢
      rcases hi with hi | hi
      · have := hb i hi
        omega
      · omega

lemma range_flatMap_const_length {α : Type} (n k : Nat) (f : Nat → List α)
    (h : ∀ i, (f i).length = k) : ((List.range n).flatMap f).length = n * k := by
  induction n with
  | zero => simp
  | succ m ih =>
    rw [List.range_succ, List.flatMap_append]
    simp [h, ih, Nat.succ_mul]

lemma chunkCoords_length : chunkCoords.length = 4096 := by
  have h1 : ∀ z : Nat, (((List.range Chunk.SIZE_Y).flatMap fun y =>
      (List.range Chunk.SIZE_X).map fun x => (x, y, z))).length = 256 := by
    intro z
    rw [range_flatMap_const_length Chunk.SIZE_Y 16]
    · norm_num [Chunk.SIZE_Y]
    · intro y
      simp [Chunk.SIZE_X]
  unfold chunkCoords
  rw [range_flatMap_const_length Chunk.SIZE_Z 256 _ h1]
  norm_num [Chunk.SIZE_Z]

/-- Claim C5: after any `generate_mesh` call, positions, normals and uvs have
equal length, the index count is a multiple of 3, and every index value is
strictly below the vertex count. -/
theorem C5_generate_mesh_buffer_invariants (chunk : Chunk) :
    (NaiveChunkMesher.generate_mesh chunk).positions.length =
      (NaiveChunkMesher.generate_mesh chunk).normals.length ∧
    (NaiveChunkMesher.generate_mesh chunk).positions.length =
      (NaiveChunkMesher.generate_mesh chunk).uvs.length ∧
    (NaiveChunkMesher.generate_mesh chunk).indices.length % 3 = 0 ∧
    ∀ i ∈ (NaiveChunkMesher.generate_mesh chunk).indices,
      i < (NaiveChunkMesher.generate_mesh chunk).positions.length := by
  unfold NaiveChunkMesher.generate_mesh
  refine ⟨?_, ?_, ?_, ?_⟩
  · rw [foldl_naive_positions_length, foldl_naive_normals_length]
    simp [ChunkMeshData.default]
  · rw [foldl_naive_positions_length, foldl_naive_uvs_length]
    simp [ChunkMeshData.default]
  · rw [foldl_naive_indices_length]
    simp [ChunkMeshData.default]
    omega
  · apply foldl_naive_indices_bound
    · rw [chunkCoords_length]
      decide
    · intro i hi
      simp [ChunkMeshData.default] at hi

/-- Witness for C5 at the all-air chunk. -/
theorem C5_generate_mesh_buffer_invariants_witness :
    (NaiveChunkMesher.generate_mesh Chunk.empty).positions.length =
      (NaiveChunkMesher.generate_mesh Chunk.empty).normals.length ∧
    (NaiveChunkMesher.generate_mesh Chunk.empty).positions.length =
      (NaiveChunkMesher.generate_mesh Chunk.empty).uvs.length ∧
    (NaiveChunkMesher.generate_mesh Chunk.empty).indices.length % 3 = 0 ∧
    ∀ i ∈ (NaiveChunkMesher.generate_mesh Chunk.empty).indices,
      i < (NaiveChunkMesher.generate_mesh Chunk.empty).positions.length :=
  C5_generate_mesh_buffer_invariants Chunk.empty

/-- Claim C1 (evidence of the code bug): the all-air chunk with no linked
neighbors — for which the claimed visibility rule emits no quad at all — still
gets 4096 quads (16384 vertices, 24576 indices): `generate_mesh` emits one
DIR = 0 face per voxel unconditionally, ignoring air, transparency, neighbors
and the other five directions. -/
theorem C1_all_air_chunk_meshes_every_voxel :
    (∀ b ∈ Chunk.empty.blocks, b.material = AIR.id) ∧
    (NaiveChunkMesher.generate_mesh Chunk.empty).positions.length = 16384 ∧
    (NaiveChunkMesher.generate_mesh Chunk.empty).indices.length = 24576 := by
  refine ⟨?_, ?_, ?_⟩
  · intro b hb
    have hb' : b = Block.default :=
      List.eq_of_mem_replicate (show b ∈ List.replicate
        (Chunk.SIZE_X * Chunk.SIZE_Y * Chunk.SIZE_Z) Block.default from hb)
    rw [hb']
    rfl
  · unfold NaiveChunkMesher.generate_mesh
    rw [foldl_naive_positions_length, chunkCoords_length]
    norm_num [ChunkMeshData.default]
  · unfold NaiveChunkMesher.generate_mesh
    rw [foldl_naive_indices_length, chunkCoords_length]
    norm_num [ChunkMeshData.default]

/-! ## Claim C6: insert_face append behaviour -/

/-- A buffer state whose vertex count is already `65536 = 2^16`. -/
def bigMesh : ChunkMeshData :=
  { positions := List.replicate 65536 (0, 0, 0), normals := [], uvs := [], indices := [] }

/-- Claim C6 counterexample: at a buffer already holding 65536 vertices, the
base of the six appended indices is `65536 % 2^16 = 0`, not the vertex count
65536 — the claim as stated (base always equals the vertex count, for every
sequence of calls) fails once the 16-bit index space is exhausted. -/
theorem C6_base_index_counterexample :
    ¬ ((FaceInserterImpl0.insert_face (0, 0, 0) (1, 1) bigMesh).indices =
        bigMesh.indices ++
          [bigMesh.positions.length, bigMesh.positions.length + 1,
           bigMesh.positions.length + 2, bigMesh.positions.length + 2,
           bigMesh.positions.length + 3, bigMesh.positions.length]) := by
  have h1 : bigMesh.positions.length = 65536 := by
    rw [show bigMesh.positions = List.replicate 65536 ((0 : Int), (0 : Int), (0 : Int)) from rfl,
      List.length_replicate]
  have h2 : (FaceInserterImpl0.insert_face (0, 0, 0) (1, 1) bigMesh).indices =
      bigMesh.indices ++
        [bigMesh.positions.length % 65536, (bigMesh.positions.length % 65536 + 1) % 65536,
         (bigMesh.positions.length % 65536 + 2) % 65536,
         (bigMesh.positions.length % 65536 + 2) % 65536,
         (bigMesh.positions.length % 65536 + 3) % 65536,
         bigMesh.positions.length % 65536] := rfl
  rw [h2, h1]
  simp

/-- Claim C6 amended: every `insert_face` call appends exactly 4 vertices (to
positions, normals and uvs) and exactly 6 indices; provided the buffer's
vertex count at call time stays within the 16-bit index budget
(`count + 4 ≤ 65536`), the base of the appended indices equals the vertex
count, so budget-respecting call sequences never collide in index space. -/
theorem C6_insert_face_appends (block_pos : Nat × Nat × Nat) (dims : Nat × Nat)
    (mesh : ChunkMeshData) (h : mesh.positions.length + 4 ≤ 65536) :
    (∃ ps : List (Int × Int × Int), ps.length = 4 ∧
      (FaceInserterImpl0.insert_face block_pos dims mesh).positions =
        mesh.positions ++ ps) ∧
    (∃ ns : List (Int × Int × Int), ns.length = 4 ∧
      (FaceInserterImpl0.insert_face block_pos dims mesh).normals =
        mesh.normals ++ ns) ∧
    (∃ us : List (Int × Int), us.length = 4 ∧
      (FaceInserterImpl0.insert_face block_pos dims mesh).uvs = mesh.uvs ++ us) ∧
    (FaceInserterImpl0.insert_face block_pos dims mesh).indices =
      mesh.indices ++
        [mesh.positions.length, mesh.positions.length + 1, mesh.positions.length + 2,
         mesh.positions.length + 2, mesh.positions.length + 3,
         mesh.positions.length] := by
  refine ⟨⟨_, ?_, rfl⟩, ⟨_, ?_, rfl⟩, ⟨_, ?_, rfl⟩, ?_⟩
  · rfl
  · rfl
  · rfl
  · have e0 : mesh.positions.length % 65536 = mesh.positions.length :=
      Nat.mod_eq_of_lt (by omega)
    simp [FaceInserterImpl0.insert_face, e0,
      Nat.mod_eq_of_lt (show mesh.positions.length + 1 < 65536 by omega),
      Nat.mod_eq_of_lt (show mesh.positions.length + 2 < 65536 by omega),
      Nat.mod_eq_of_lt (show mesh.positions.length + 3 < 65536 by omega)]

/-- Witness for the amended C6 at the empty buffer. -/
theorem C6_insert_face_appends_witness :
    ChunkMeshData.default.positions.length + 4 ≤ 65536 ∧
    ((∃ ps : List (Int × Int × Int), ps.length = 4 ∧
      (FaceInserterImpl0.insert_face (0, 0, 0) (1, 1) ChunkMeshData.default).positions =
        ChunkMeshData.default.positions ++ ps) ∧
    (∃ ns : List (Int × Int × Int), ns.length = 4 ∧
      (FaceInserterImpl0.insert_face (0, 0, 0) (1, 1) ChunkMeshData.default).normals =
        ChunkMeshData.default.normals ++ ns) ∧
    (∃ us : List (Int × Int), us.length = 4 ∧
      (FaceInserterImpl0.insert_face (0, 0, 0) (1, 1) ChunkMeshData.default).uvs =
        ChunkMeshData.default.uvs ++ us) ∧
    (FaceInserterImpl0.insert_face (0, 0, 0) (1, 1) ChunkMeshData.default).indices =
      ChunkMeshData.default.indices ++
        [ChunkMeshData.default.positions.length, ChunkMeshData.default.positions.length + 1,
         ChunkMeshData.default.positions.length + 2, ChunkMeshData.default.positions.length + 2,
         ChunkMeshData.default.positions.length + 3,
         ChunkMeshData.default.positions.length]) :=
  ⟨by decide, C6_insert_face_appends (0, 0, 0) (1, 1) ChunkMeshData.default (by decide)⟩

/-! ## Claim C7: face plane, normals and winding for the X+ inserter -/

/-- Componentwise difference of 3D integer vectors. -/
def vsub (a b : Int × Int × Int) : Int × Int × Int :=
  (a.1 - b.1, a.2.1 - b.2.1, a.2.2 - b.2.2)

/-- Cross product of 3D integer vectors. -/
def cross (a b : Int × Int × Int) : Int × Int × Int :=
  (a.2.1 * b.2.2 - a.2.2 * b.2.1, a.2.2 * b.1 - a.1 * b.2.2, a.1 * b.2.1 - a.2.1 * b.1)

/-- Geometric (winding) normal of a triangle: `(q - p) × (r - p)`. -/
def triangleNormal (p q r : Int × Int × Int) : Int × Int × Int :=
  cross (vsub q p) (vsub r p)

/-- Claim C7: each face the mesher emits for voxel (x, y, z) (every emission
in the source is DIR = 0, the X+ direction, with the origin voxel passed to
`insert_face` as `(x + 1, y, z)`) has its 4 vertices in the plane
`X = x + 1` (origin + 1 along the direction's own axis), all four stored
normals equal to the positive unit X vector — the sign given by
`is_positive` — and the quad's two triangles (indices emit them as
`p0 p1 p2` and `p2 p3 p0`) share that same outward geometric normal. -/
theorem C7_xpos_face_geometry (chunk : Chunk) (mesh : ChunkMeshData) (x y z : Nat) :
    AADirection.XPositive.is_positive = true ∧
    ∃ p0 p1 p2 p3 : Int × Int × Int,
      (naiveMeshStep chunk mesh (x, y, z)).positions = mesh.positions ++ [p0, p1, p2, p3] ∧
      (p0.1 = (x : Int) + 1 ∧ p1.1 = (x : Int) + 1 ∧ p2.1 = (x : Int) + 1 ∧
        p3.1 = (x : Int) + 1) ∧
      (naiveMeshStep chunk mesh (x, y, z)).normals =
        mesh.normals ++ [(1, 0, 0), (1, 0, 0), (1, 0, 0), (1, 0, 0)] ∧
      triangleNormal p0 p1 p2 = (1, 0, 0) ∧ triangleNormal p2 p3 p0 = (1, 0, 0) := by
  refine ⟨rfl, ((x : Int) + 1, (y : Int) + 1, (z : Int)),
    ((x : Int) + 1, (y : Int) + 1, (z : Int) + 1),
    ((x : Int) + 1, (y : Int), (z : Int) + 1),
    ((x : Int) + 1, (y : Int), (z : Int)), ?_, ?_, ?_, ?_, ?_⟩
  · simp [naiveMeshStep, FaceInserterImpl0.insert_face]
  · exact ⟨rfl, rfl, rfl, rfl⟩
  · simp [naiveMeshStep, FaceInserterImpl0.insert_face]
  · simp [triangleNormal, cross, vsub]
  · simp [triangleNormal, cross, vsub]

/-- Witness for C7 at the all-air chunk, empty buffer and voxel (0, 0, 0). -/
theorem C7_xpos_face_geometry_witness :
    AADirection.XPositive.is_positive = true ∧
    ∃ p0 p1 p2 p3 : Int × Int × Int,
      (naiveMeshStep Chunk.empty ChunkMeshData.default (0, 0, 0)).positions =
        ChunkMeshData.default.positions ++ [p0, p1, p2, p3] ∧
      (p0.1 = ((0 : Nat) : Int) + 1 ∧ p1.1 = ((0 : Nat) : Int) + 1 ∧
        p2.1 = ((0 : Nat) : Int) + 1 ∧ p3.1 = ((0 : Nat) : Int) + 1) ∧
      (naiveMeshStep Chunk.empty ChunkMeshData.default (0, 0, 0)).normals =
        ChunkMeshData.default.normals ++ [(1, 0, 0), (1, 0, 0), (1, 0, 0), (1, 0, 0)] ∧
      triangleNormal p0 p1 p2 = (1, 0, 0) ∧ triangleNormal p2 p3 p0 = (1, 0, 0) :=
  C7_xpos_face_geometry Chunk.empty ChunkMeshData.default 0 0 0
